import Mathlib

/-!
Shallow embedding of the `rund` process supervisor (src/src/*.c) and proofs
about its respawn policy, supervision loop, graceful shutdown, daemonization
and cleanup paths.

Conventions used throughout:
* C `uint32_t` words are `Nat` values kept below `2 ^ 32`; overflow points are
  modelled with an explicit `% 2 ^ 32`.
* C functions that perform system calls are modelled as pure functions from an
  explicit environment (describing the outcomes of those system calls) to a
  trace of the calls performed plus the C return value.
* A C expression whose evaluation is undefined behaviour (a left shift by a
  negative amount) is modelled with `Option`, `none` standing for "undefined".
-/

namespace Rund

/-- Value of `-1U`, the all-ones 32-bit word used in option.c. -/
def UINT32_MAX : Nat := 2 ^ 32 - 1

/-- Modulus of the C `unsigned int` arithmetic used for the respawn counter. -/
def UINT_MOD : Nat := 2 ^ 32

/-- Reserved exit code of a child whose setup or exec failed (main.c line 33). -/
def CHILD_EXEC_ERR_CODE : Nat := 254

/-- C `EXIT_SUCCESS`. -/
def EXIT_SUCCESS : Int := 0

/-- C `EXIT_FAILURE`. -/
def EXIT_FAILURE : Int := 1

/-- internal.h line 23: number of 32-bit words in the respawn-code bitset. -/
def RESPAWN_CODE_BITS_ARRAY_SIZE : Nat := 4

/-- Embedding of `option_t` (internal.h lines 26-51).  C `char *` fields that
may be NULL become `Option String`; the `environment_cnt`, `target_argc`
counters are implied by the list lengths.  `respawn_code_bits` is the
4-element array of `uint32_t` words, kept as a `List Nat`.
`max_respawn_cnt` is a C `int` that the parser only ever stores non-negative
values into, so it is modelled as `Nat`. -/
structure option_t where
  stdout_file : Option String
  stderr_file : Option String
  working_dir : Option String
  user : Option String
  home_dir : Option String
  uid : Nat
  gid : Nat
  environments : List String
  pid_file : Option String
  respawn : Bool
  respawn_code_bits : List Nat
  respawn_delay : Int
  max_respawn_cnt : Nat
  target : Option String
  target_argv : List String
deriving DecidableEq

/-- Embedding of `OPTION_INITIALIZER` (internal.h lines 53-70).  The default
respawn bitset is `{-2U, -1U, -1U, -1U}`: word 0 has every bit but bit 0 set,
words 1-3 are all ones. -/
def OPTION_INIT : option_t :=
  { stdout_file := none
    stderr_file := none
    working_dir := none
    user := none
    home_dir := none
    uid := 0
    gid := 0
    environments := []
    pid_file := none
    respawn := false
    respawn_code_bits := [UINT32_MAX - 1, UINT32_MAX, UINT32_MAX, UINT32_MAX]
    respawn_delay := 3
    max_respawn_cnt := 0
    target := none
    target_argv := [] }

/-- Embedding of `runtimefds_t` (internal.h lines 75-80). -/
structure runtimefds_t where
  stdout_fd : Int
  stderr_fd : Int
  pid_fd : Int
deriving DecidableEq

/-- Embedding of `RUNTIMEFDS_INITIALIZER` (internal.h line 82). -/
def RUNTIMEFDS_INIT : runtimefds_t := ⟨-1, -1, -1⟩

/-! ## Respawn-code bitset -/

/-- The loop of `check_respawn_required` (main.c lines 56-66): walk the words
of the bitset; once `code < 32`, return `bits[i] & (1 << code)` converted to
bool; past the last word return false.  When `code` is negative, `1 << code`
is a left shift by a negative amount, which C leaves undefined; that case is
modelled as `none`. -/
def respawn_bit_lookup : List Nat → Int → Option Bool
  | [], _ => some false
  | w :: ws, code =>
    if code < 32 then
      if code < 0 then none
      else some ((w &&& ((1 : Nat) <<< code.toNat)) != 0)
    else respawn_bit_lookup ws (code - 32)

/-- Embedding of `check_respawn_required` (main.c lines 49-67). -/
def check_respawn_required (opt : option_t) (code : Int) : Option Bool :=
  if !opt.respawn then some false
  else respawn_bit_lookup opt.respawn_code_bits code

/-- The bit-set loop of `parse_respawn_code` (option.c lines 166-176): walk
words; once `code < 32`, OR `1 << code` into that word and stop.  Callers
establish `0 ≤ code ≤ 127`, so the shift amount is in `[0, 31]` and the ORed
value fits a `uint32_t`. -/
def set_code_bit : List Nat → Int → List Nat
  | [], _ => []
  | w :: ws, code =>
    if code < 32 then (w ||| ((1 : Nat) <<< code.toNat)) :: ws
    else w :: set_code_bit ws (code - 32)

/-- Embedding of `parse_respawn_code` (option.c lines 136-179), after the
`strtol` string-to-integer conversion (which this model abstracts away: the
argument `code` is the parsed long).  The range check `code > 127 || code < -1`
and the two behaviours (-1 sets every word to `-1U`; otherwise set bit `code`)
are kept. -/
def parse_respawn_code (opt : option_t) (code : Int) : Except Unit option_t :=
  if code > 127 ∨ code < -1 then Except.error ()
  else if code = -1 then
    Except.ok { opt with respawn_code_bits := opt.respawn_code_bits.map fun _ => UINT32_MAX }
  else
    Except.ok { opt with respawn_code_bits := set_code_bit opt.respawn_code_bits code }

/-- Parser state relevant to `--respawn-code` handling inside `parse_option`:
the options record plus the local `has_respawn_code` flag (option.c line 532). -/
structure RCState where
  opt : option_t
  has_respawn_code : Bool
deriving DecidableEq

/-- Embedding of the `OPT_RESPAWN_CODE` case of `parse_option`
(option.c lines 564-572): on the first occurrence, `memset` the bitset to
zero and set `has_respawn_code`; then parse the code. -/
def handle_respawn_code_opt (st : RCState) (code : Int) : Except Unit RCState :=
  let st1 : RCState :=
    if !st.has_respawn_code then
      ⟨{ st.opt with respawn_code_bits := st.opt.respawn_code_bits.map fun _ => 0 }, true⟩
    else st
  match parse_respawn_code st1.opt code with
  | Except.ok opt2 => Except.ok ⟨opt2, st1.has_respawn_code⟩
  | Except.error e => Except.error e

/-- Fold of `handle_respawn_code_opt` over the sequence of `--respawn-code`
arguments appearing on the command line, in order. -/
def run_respawn_codes (st : RCState) : List Int → Except Unit RCState
  | [] => Except.ok st
  | c :: cs =>
    match handle_respawn_code_opt st c with
    | Except.ok st2 => run_respawn_codes st2 cs
    | Except.error e => Except.error e

/-- The spec's lookup formula, written exactly as spec.md section 4.5 states
it: bit `(word[c/32] >> (c%32)) & 1` of the bitset, for `c` in `[0,127]`. -/
def bits_testBit (ws : List Nat) (c : Nat) : Bool :=
  (((ws.getD (c / 32) 0) >>> (c % 32)) &&& 1) == 1

/-! ## Wait-status decoding (the glibc macros used by main.c) -/

/-- Embedding of `WIFEXITED(status)`: low 7 bits all zero. -/
def WIFEXITED (status : Nat) : Bool := status &&& 0x7f == 0

/-- Embedding of `WEXITSTATUS(status)`: bits 8-15. -/
def WEXITSTATUS (status : Nat) : Nat := (status >>> 8) &&& 0xff

/-! ## The deciding step of the supervision loop (main.c lines 363-421) -/

/-- Outcome of the deciding step: either the supervisor terminates through
`cleanup_and_exit code`, or it proceeds to respawn the target. -/
inductive Decision where
  | exitSup (code : Int)
  | respawn
deriving DecidableEq

/-- Embedding of main.c lines 394-421, reached for every reaped child that
was not an exec failure: increment the `unsigned int` respawn counter; if
`max_respawn_cnt` is non-zero and the counter exceeds it, exit success; if
respawn is not required, exit success; otherwise (after the respawn-delay
sleep, which only affects timing) respawn.  Returns the decision and the new
counter value. -/
def after_classify (opt : option_t) (respawn_required : Bool) (respawn_cnt : Nat) :
    Decision × Nat :=
  let cnt := (respawn_cnt + 1) % UINT_MOD
  if opt.max_respawn_cnt ≠ 0 ∧ cnt > opt.max_respawn_cnt then
    (Decision.exitSup EXIT_SUCCESS, cnt)
  else if !respawn_required then
    (Decision.exitSup EXIT_SUCCESS, cnt)
  else
    (Decision.respawn, cnt)

/-- Embedding of main.c lines 363-421, the handling of a reaped child with
wait status `status` while the respawn counter is `respawn_cnt`:
if the child exited with the reserved code 254, exit failure at once (before
the counter update); if it exited normally, consult the bitset; the
`WIFSIGNALED` and abnormal branches differ only in the message they log and
both leave `respawn_required = option.respawn` (line 365).  `none` models the
undefined lookup (never reached, since `WEXITSTATUS` is non-negative). -/
def decide_after_death (opt : option_t) (status : Nat) (respawn_cnt : Nat) :
    Option (Decision × Nat) :=
  if WIFEXITED status then
    if WEXITSTATUS status = CHILD_EXEC_ERR_CODE then
      some (Decision.exitSup EXIT_FAILURE, respawn_cnt)
    else
      match check_respawn_required opt (WEXITSTATUS status : Int) with
      | none => none
      | some rr => some (after_classify opt rr respawn_cnt)
  else
    some (after_classify opt opt.respawn respawn_cnt)

/-- Iterated supervision: process a list of successive child wait statuses
starting from a given respawn counter.  Returns `some (k, d)` when the
supervisor reaches a terminal decision `d` after performing `k` respawns,
`none` if the status list runs out first. -/
def supervise (opt : option_t) : Nat → List Nat → Option (Nat × Decision)
  | _, [] => none
  | cnt, status :: rest =>
    match decide_after_death opt status cnt with
    | none => none
    | some (Decision.respawn, cnt2) =>
      match supervise opt cnt2 rest with
      | none => none
      | some (k, d) => some (k + 1, d)
    | some (Decision.exitSup c, _) => some (0, Decision.exitSup c)

/-! ## Graceful shutdown (main.c lines 204-236) -/

/-- Microseconds slept per tick of the shutdown wait loop: `usleep(200*1000)`. -/
def tick_us : Nat := 200 * 1000

/-- Number of loop ticks: `int timeout_cnt = 5 * 10` (10 seconds). -/
def shutdown_timeout_cnt : Nat := 5 * 10

/-- Observable events of `graceful_shutdown`. -/
inductive ShutdownEvent where
  | sig_term (pid : Int)
  | sleep_us (us : Nat)
  | wait_nohang (pid : Int) (reaped : Bool)
  | warn_timeout
  | sig_kill (pid : Int)
  | wait_block (pid : Int)
deriving DecidableEq

/-- The wait loop of `graceful_shutdown` (main.c lines 219-235): while fuel
remains, sleep one tick, then non-blocking waitpid; if the child was reaped
(`reap t` at tick index `t`) return; once the fuel is exhausted, log a
warning, send SIGKILL, and wait blockingly. -/
def shutdown_wait_loop (pid : Int) (reap : Nat → Bool) : Nat → Nat → List ShutdownEvent
  | 0, _ =>
    [ShutdownEvent.warn_timeout, ShutdownEvent.sig_kill pid, ShutdownEvent.wait_block pid]
  | fuel + 1, t =>
    ShutdownEvent.sleep_us tick_us :: ShutdownEvent.wait_nohang pid (reap t) ::
      (if reap t then [] else shutdown_wait_loop pid reap fuel (t + 1))

/-- Embedding of `graceful_shutdown` (main.c lines 204-236): return at once
when `pid ≤ 0`; otherwise send SIGTERM and enter the wait loop.  `reap t`
states whether the non-blocking waitpid at tick `t` reaps the child. -/
def graceful_shutdown (pid : Int) (reap : Nat → Bool) : List ShutdownEvent :=
  if pid ≤ 0 then []
  else ShutdownEvent.sig_term pid :: shutdown_wait_loop pid reap shutdown_timeout_cnt 0

/-- Number of sleep ticks in a shutdown trace. -/
def count_sleeps (tr : List ShutdownEvent) : Nat :=
  tr.countP fun e => match e with
    | ShutdownEvent.sleep_us _ => true
    | _ => false

/-- Result of one iteration of the watch loop (main.c lines 348-425). -/
inductive WatchResult where
  | shutdown (trace : List ShutdownEvent) (exit_code : Int)
  | reaped (status : Nat)
  | keep_watching
deriving DecidableEq

/-- Embedding of one iteration of the watch loop (main.c lines 350-424): if
the shutdown flag is set, run `graceful_shutdown` and `cleanup_and_exit`
with `EXIT_SUCCESS`; otherwise poll waitpid (`reap_now` is its outcome) and
either proceed to the deciding step or keep watching. -/
def watch_step (pid : Int) (shutdown_requested : Bool) (reap_now : Option Nat)
    (reap_sched : Nat → Bool) : WatchResult :=
  if shutdown_requested then
    WatchResult.shutdown (graceful_shutdown pid reap_sched) EXIT_SUCCESS
  else
    match reap_now with
    | some status => WatchResult.reaped status
    | none => WatchResult.keep_watching

/-! ## Cleanup (main.c lines 74-99) and the shutdown signal handler -/

/-- Observable actions of `cleanup_and_exit`. -/
inductive CleanupAction where
  | close_fd (fd : Int)
  | unlink_pid (path : Option String)
  | free_opt
  | exit_call (code : Int)
deriving DecidableEq

/-- Embedding of `cleanup_and_exit` (main.c lines 74-99) as the sequence of
actions performed: close the stdout redirect fd if open, close the stderr
redirect fd if open, and if the pid-file fd is open close it and unlink the
pid file; then free the options and exit with `code`. -/
def cleanup_and_exit (opt : option_t) (fds : runtimefds_t) (code : Int) :
    List CleanupAction :=
  (if 0 ≤ fds.stdout_fd then [CleanupAction.close_fd fds.stdout_fd] else []) ++
  (if 0 ≤ fds.stderr_fd then [CleanupAction.close_fd fds.stderr_fd] else []) ++
  (if 0 ≤ fds.pid_fd then
    [CleanupAction.close_fd fds.pid_fd, CleanupAction.unlink_pid opt.pid_file]
   else []) ++
  [CleanupAction.free_opt, CleanupAction.exit_call code]

/-- Embedding of main.c lines 294-297: after `daemonize` returns `rc`, the
supervisor records the pid-file descriptor only when `rc > 0`. -/
def main_set_pid_fd (rc : Int) (fds : runtimefds_t) : runtimefds_t :=
  if rc > 0 then { fds with pid_fd := rc } else fds

/-- Observable effects of the shutdown signal handler. -/
inductive HandlerEffect where
  | syslog_warn (sig_no : Int)
  | store_shutdown_flag
deriving DecidableEq

/-- Embedding of `sigaction_handler` (main.c lines 243-248): the handler
first calls `syslog(LOG_WARNING, ...)` (with `strsignal`), then stores 1
into `shutdown_requested`.  Returns the list of side effects other than the
flag store, and the new flag value. -/
def sigaction_handler (sig_no : Int) (_shutdown_requested : Bool) :
    List HandlerEffect × Bool :=
  ([HandlerEffect.syslog_warn sig_no], true)

/-! ## User/group switch in the child (main.c lines 144-179, 330-335) -/

/-- System calls performed by `set_user_and_group`. -/
inductive UserCall where
  | c_initgroups (user : String) (gid : Nat)
  | c_setgid (g : Nat)
  | c_setuid (u : Nat)
  | c_setenv (name value : String)
deriving DecidableEq

/-- Outcomes of the three fallible system calls in `set_user_and_group`. -/
structure UserSwitchEnv where
  initgroups_ok : Bool
  setgid_ok : Bool
  setuid_ok : Bool
deriving DecidableEq

/-- Embedding of `set_user_and_group` (main.c lines 144-179): nothing when no
user is configured; otherwise `initgroups(user, gid)`, `setgid(gid)`, then
`setuid(opt->gid)` — the source really passes `gid` to `setuid` (line 167) —
returning -1 as soon as one fails, else exporting USER/LOGNAME/HOME and
returning 0.  Returns the call trace and the C return value. -/
def set_user_and_group (opt : option_t) (env : UserSwitchEnv) :
    List UserCall × Int :=
  match opt.user with
  | none => ([], 0)
  | some user =>
    if env.initgroups_ok = false then
      ([UserCall.c_initgroups user opt.gid], -1)
    else if env.setgid_ok = false then
      ([UserCall.c_initgroups user opt.gid, UserCall.c_setgid opt.gid], -1)
    else if env.setuid_ok = false then
      ([UserCall.c_initgroups user opt.gid, UserCall.c_setgid opt.gid,
        UserCall.c_setuid opt.gid], -1)
    else
      ([UserCall.c_initgroups user opt.gid, UserCall.c_setgid opt.gid,
        UserCall.c_setuid opt.gid,
        UserCall.c_setenv "USER" user, UserCall.c_setenv "LOGNAME" user,
        UserCall.c_setenv "HOME" (opt.home_dir.getD "")], 0)

/-- Embedding of main.c lines 330-335: the forked child exits with the
reserved code 254 when `set_user_and_group` fails, else continues to exec. -/
def child_user_switch (opt : option_t) (env : UserSwitchEnv) : Option Nat :=
  if (set_user_and_group opt env).2 < 0 then some CHILD_EXEC_ERR_CODE else none

/-! ## Daemonize (daemonize.c lines 85-181) -/

/-- Outcomes of the fallible steps of `daemonize`, seen from the surviving
process: `lock1`/`lock2` are the two `test_running` calls (pid-file open +
lock; `some fd` on success), `pipe_ok`/`fork_ok` the pipe and fork calls,
`devnull` the open of /dev/null. -/
structure DaemonizeEnv where
  lock1 : Option Nat
  pipe_ok : Bool
  fork_ok : Bool
  lock2 : Option Nat
  devnull : Option Nat
deriving DecidableEq

/-- Embedding of `daemonize` (daemonize.c lines 85-181) from the perspective
of the process in which the call returns (the forked child; the parent exits
success inside the call).  With a pid file: first `test_running` (line 93),
then `pipe` (line 99), then `fork` (line 106); the child re-runs
`test_running` (line 149) after the handshake; finally /dev/null is opened
(line 161); each failure returns -1, success returns the re-acquired lock
fd.  Without a pid file: only fork and /dev/null can fail; success returns
the initial `pid_fd = 0` (line 89). -/
def daemonize (pid_file : Option String) (env : DaemonizeEnv) : Int :=
  match pid_file with
  | some _ =>
    match env.lock1 with
    | none => -1
    | some _ =>
      if env.pipe_ok = false then -1
      else if env.fork_ok = false then -1
      else
        match env.lock2 with
        | none => -1
        | some fd2 =>
          match env.devnull with
          | none => -1
          | some _ => Int.ofNat fd2
  | none =>
    if env.fork_ok = false then -1
    else
      match env.devnull with
      | none => -1
      | some _ => 0

/-- A configuration running the target as user alice with distinct uid and
gid, used to exhibit the user-switch behaviour. -/
def opt_alice : option_t :=
  { OPTION_INIT with
    user := some "alice", uid := 1000, gid := 2000,
    home_dir := some "/home/alice" }

/-! ## Helper lemmas on the bitset -/

/-- Boolean equality on `Nat` agrees with propositional equality. -/
lemma nat_beq_decide (a b : Nat) : (a == b) = decide (a = b) := by
  by_cases h : a = b <;> simp [h]

/-- The bool conversion of `w & (1 << i)` is exactly bit `i` of `w`. -/
lemma and_shift_ne_zero (w i : Nat) : ((w &&& ((1 : Nat) <<< i)) != 0) = w.testBit i := by
  rw [Nat.one_shiftLeft, Nat.and_two_pow]
  cases h : w.testBit i <;> simp [h]

/-- The spec's formula `(word[c/32] >> (c%32)) & 1` agrees with `Nat.testBit`
on the selected word. -/
lemma bits_testBit_eq (ws : List Nat) (c : Nat) :
    bits_testBit ws c = (ws.getD (c / 32) 0).testBit (c % 32) := by
  simp only [bits_testBit, Nat.testBit_to_div_mod, Nat.and_one_is_mod,
    Nat.shiftRight_eq_div_pow]
  exact nat_beq_decide _ _

/-- One step of the lookup loop when the code is in the current word. -/
lemma respawn_bit_lookup_head (w : Nat) (ws : List Nat) (c : Nat) (hc : c < 32) :
    respawn_bit_lookup (w :: ws) (c : Int) = some (w.testBit c) := by
  simp only [respawn_bit_lookup]
  rw [if_pos (by exact_mod_cast hc), if_neg (by omega), Int.toNat_ofNat,
    and_shift_ne_zero]

/-- One step of the lookup loop when the code is past the current word. -/
lemma respawn_bit_lookup_tail (w : Nat) (ws : List Nat) (c : Nat) (hc : 32 ≤ c) :
    respawn_bit_lookup (w :: ws) (c : Int) =
      respawn_bit_lookup ws ((c - 32 : Nat) : Int) := by
  simp only [respawn_bit_lookup]
  rw [if_neg (by omega : ¬ ((c : Int) < 32))]
  congr 1
  omega

/-- For a code in `[0, 127]` the loop of `check_respawn_required` computes
exactly the spec's bit formula. -/
lemma respawn_bit_lookup_eq (w0 w1 w2 w3 : Nat) (c : Nat) (hc : c < 128) :
    respawn_bit_lookup [w0, w1, w2, w3] (c : Int) =
      some (bits_testBit [w0, w1, w2, w3] c) := by
  rcases Nat.lt_or_ge c 32 with h | h
  · rw [respawn_bit_lookup_head _ _ _ h, bits_testBit_eq]
    have h1 : c / 32 = 0 := by omega
    have h2 : c % 32 = c := by omega
    rw [h1, h2]
    rfl
  rcases Nat.lt_or_ge c 64 with h' | h'
  · rw [respawn_bit_lookup_tail _ _ _ h, respawn_bit_lookup_head _ _ _ (by omega),
      bits_testBit_eq]
    have h1 : c / 32 = 1 := by omega
    have h2 : c % 32 = c - 32 := by omega
    rw [h1, h2]
    rfl
  rcases Nat.lt_or_ge c 96 with h'' | h''
  · rw [respawn_bit_lookup_tail _ _ _ h, respawn_bit_lookup_tail _ _ _ (by omega),
      respawn_bit_lookup_head _ _ _ (by omega), bits_testBit_eq]
    have h1 : c / 32 = 2 := by omega
    have h2 : c % 32 = c - 32 - 32 := by omega
    rw [h1, h2]
    rfl
  · rw [respawn_bit_lookup_tail _ _ _ h, respawn_bit_lookup_tail _ _ _ (by omega),
      respawn_bit_lookup_tail _ _ _ (by omega),
      respawn_bit_lookup_head _ _ _ (by omega), bits_testBit_eq]
    have h1 : c / 32 = 3 := by omega
    have h2 : c % 32 = c - 32 - 32 - 32 := by omega
    rw [h1, h2]
    rfl

/-- For a code at or above 128 the loop walks past all four words and
returns false. -/
lemma respawn_bit_lookup_ge (w0 w1 w2 w3 : Nat) (c : Int) (hc : 128 ≤ c) :
    respawn_bit_lookup [w0, w1, w2, w3] c = some false := by
  simp only [respawn_bit_lookup]
  rw [if_neg (by omega), if_neg (by omega), if_neg (by omega), if_neg (by omega)]

/-- For a negative code the loop evaluates `1 << code` with a negative shift
amount, which is undefined behaviour, modelled as `none`. -/
lemma respawn_bit_lookup_neg (w : Nat) (ws : List Nat) (c : Int) (hc : c < 0) :
    respawn_bit_lookup (w :: ws) c = none := by
  simp only [respawn_bit_lookup]
  rw [if_pos (by omega), if_pos hc]

/-- The lookup always yields a value on non-negative codes. -/
lemma respawn_bit_lookup_isSome (ws : List Nat) (c : Int) (hc : 0 ≤ c) :
    (respawn_bit_lookup ws c).isSome := by
  induction ws generalizing c with
  | nil => simp [respawn_bit_lookup]
  | cons w ws ih =>
    simp only [respawn_bit_lookup]
    by_cases h : c < 32
    · rw [if_pos h, if_neg (by omega)]
      rfl
    · rw [if_neg h]
      exact ih (c - 32) (by omega)

/-- The spec's bit formula on a cons cell, index inside the head word. -/
lemma bits_testBit_cons_lt (w : Nat) (ws : List Nat) (j : Nat) (h : j < 32) :
    bits_testBit (w :: ws) j = w.testBit j := by
  rw [bits_testBit_eq]
  have h1 : j / 32 = 0 := by omega
  have h2 : j % 32 = j := by omega
  rw [h1, h2]
  rfl

/-- The spec's bit formula on a cons cell, index past the head word. -/
lemma bits_testBit_cons_ge (w : Nat) (ws : List Nat) (j : Nat) (h : 32 ≤ j) :
    bits_testBit (w :: ws) j = bits_testBit ws (j - 32) := by
  rw [bits_testBit_eq, bits_testBit_eq]
  have h1 : j / 32 = (j - 32) / 32 + 1 := by omega
  have h2 : j % 32 = (j - 32) % 32 := by omega
  rw [h1, h2]
  simp [List.getD_cons_succ]

/-- One step of the bit-set loop, code inside the head word. -/
lemma set_code_bit_lt (w : Nat) (ws : List Nat) (c : Nat) (hc : c < 32) :
    set_code_bit (w :: ws) (c : Int) = (w ||| ((1 : Nat) <<< c)) :: ws := by
  simp only [set_code_bit]
  rw [if_pos (by exact_mod_cast hc), Int.toNat_ofNat]

/-- One step of the bit-set loop, code past the head word. -/
lemma set_code_bit_ge (w : Nat) (ws : List Nat) (c : Nat) (hc : 32 ≤ c) :
    set_code_bit (w :: ws) (c : Int) = w :: set_code_bit ws ((c - 32 : Nat) : Int) := by
  simp only [set_code_bit]
  rw [if_neg (by omega : ¬ ((c : Int) < 32))]
  have h : (c : Int) - 32 = ((c - 32 : Nat) : Int) := by omega
  rw [h]

/-- Setting bit `c` sets exactly bit `c`: bit `j` of the updated bitset is
bit `j` of the old bitset, ORed with `j = c`. -/
lemma set_code_bit_testBit (ws : List Nat) (c j : Nat)
    (hc : c < 32 * ws.length) (hj : j < 32 * ws.length) :
    bits_testBit (set_code_bit ws (c : Int)) j =
      (bits_testBit ws j || decide (j = c)) := by
  induction ws generalizing c j with
  | nil => simp at hc
  | cons w ws ih =>
    by_cases hc32 : c < 32
    · rw [set_code_bit_lt _ _ _ hc32]
      by_cases hj32 : j < 32
      · rw [bits_testBit_cons_lt _ _ _ hj32, bits_testBit_cons_lt _ _ _ hj32,
          Nat.one_shiftLeft, Nat.testBit_or, Nat.testBit_two_pow]
        rw [decide_eq_decide.mpr (by omega : (c = j) ↔ (j = c))]
      · rw [bits_testBit_cons_ge _ _ _ (by omega), bits_testBit_cons_ge _ _ _ (by omega),
          decide_eq_false (by omega : ¬ (j = c))]
        simp
    · rw [set_code_bit_ge _ _ _ (by omega)]
      by_cases hj32 : j < 32
      · rw [bits_testBit_cons_lt _ _ _ hj32, bits_testBit_cons_lt _ _ _ hj32,
          decide_eq_false (by omega : ¬ (j = c))]
        simp
      · rw [bits_testBit_cons_ge _ _ _ (by omega), bits_testBit_cons_ge _ _ _ (by omega),
          ih (c - 32) (j - 32) (by simp at hc ⊢; omega) (by simp at hj ⊢; omega),
          decide_eq_decide.mpr (by omega : (j - 32 = c - 32) ↔ (j = c))]

/-! ## Helper lemmas on the deciding step -/

/-- The counter returned by the post-death policy step is always the
incremented (mod `2^32`) counter. -/
lemma after_classify_snd (opt : option_t) (rr : Bool) (cnt : Nat) :
    (after_classify opt rr cnt).2 = (cnt + 1) % UINT_MOD := by
  simp only [after_classify]
  split_ifs <;> rfl

/-- When the cap is configured and exceeded, the policy step exits success,
whatever the respawn decision was. -/
lemma after_classify_cap (opt : option_t) (rr : Bool) (cnt : Nat)
    (h0 : opt.max_respawn_cnt ≠ 0) (h1 : (cnt + 1) % UINT_MOD > opt.max_respawn_cnt) :
    after_classify opt rr cnt = (Decision.exitSup EXIT_SUCCESS, (cnt + 1) % UINT_MOD) := by
  simp only [after_classify]
  rw [if_pos ⟨h0, h1⟩]

/-- When the cap is not hit, the policy step respawns exactly when the
respawn decision was true. -/
lemma after_classify_nocap (opt : option_t) (rr : Bool) (cnt : Nat)
    (h : ¬(opt.max_respawn_cnt ≠ 0 ∧ (cnt + 1) % UINT_MOD > opt.max_respawn_cnt)) :
    after_classify opt rr cnt =
      ((if rr then Decision.respawn else Decision.exitSup EXIT_SUCCESS),
        (cnt + 1) % UINT_MOD) := by
  simp only [after_classify, if_neg h]
  cases rr <;> simp

/-- Inversion: a respawn outcome of the policy step means the respawn
decision was true, the cap was not hit, and the counter was incremented. -/
lemma after_classify_respawn_inv (opt : option_t) (rr : Bool) (cnt : Nat) (d : Nat)
    (h : after_classify opt rr cnt = (Decision.respawn, d)) :
    rr = true ∧ ¬(opt.max_respawn_cnt ≠ 0 ∧ (cnt + 1) % UINT_MOD > opt.max_respawn_cnt) ∧
      d = (cnt + 1) % UINT_MOD := by
  by_cases hcap : opt.max_respawn_cnt ≠ 0 ∧ (cnt + 1) % UINT_MOD > opt.max_respawn_cnt
  · rw [after_classify_cap _ _ _ hcap.1 hcap.2] at h
    simp at h
  · rw [after_classify_nocap _ _ _ hcap] at h
    cases rr
    · simp at h
    · simp at h
      exact ⟨rfl, hcap, h.symm⟩

/-- The exec-failure branch: an exited child with code 254 makes the
supervisor exit failure at once, with the counter untouched. -/
lemma decide_after_death_fatal (opt : option_t) (s cnt : Nat)
    (h1 : WIFEXITED s = true) (h2 : WEXITSTATUS s = CHILD_EXEC_ERR_CODE) :
    decide_after_death opt s cnt = some (Decision.exitSup EXIT_FAILURE, cnt) := by
  simp [decide_after_death, h1, h2]

/-- Every non-exec-failure death goes through the policy step
`after_classify` for some respawn decision. -/
lemma decide_after_death_shape (opt : option_t) (s cnt : Nat)
    (p : Decision × Nat)
    (h254 : ¬(WIFEXITED s = true ∧ WEXITSTATUS s = CHILD_EXEC_ERR_CODE))
    (h : decide_after_death opt s cnt = some p) :
    ∃ rr : Bool, p = after_classify opt rr cnt := by
  by_cases he : WIFEXITED s
  · have hc : ¬(WEXITSTATUS s = CHILD_EXEC_ERR_CODE) := fun hcc => h254 ⟨he, hcc⟩
    simp only [decide_after_death, if_pos he, if_neg hc] at h
    rcases hck : check_respawn_required opt (WEXITSTATUS s : Int) with _ | rr
    · rw [hck] at h
      simp at h
    · rw [hck] at h
      simp at h
      exact ⟨rr, h.symm⟩
  · simp only [decide_after_death, if_neg he] at h
    simp at h
    exact ⟨opt.respawn, h.symm⟩

/-- Master induction for the respawn cap: starting from any counter value
`cnt ≤ N`, at most `N - cnt` respawns happen, and if the run exits exactly
at counter `N` through the policy (no exec failure in the trace), the exit
is the graceful cap exit. -/
lemma supervise_cap (opt : option_t) (N : Nat) (hmax : opt.max_respawn_cnt = N)
    (hN : 0 < N) (hN2 : N + 1 < UINT_MOD) :
    ∀ (statuses : List Nat) (cnt k : Nat) (d : Decision), cnt ≤ N →
      supervise opt cnt statuses = some (k, d) →
      k + cnt ≤ N ∧
        (k + cnt = N →
          (∀ s ∈ statuses, ¬(WIFEXITED s = true ∧ WEXITSTATUS s = CHILD_EXEC_ERR_CODE)) →
          d = Decision.exitSup EXIT_SUCCESS) := by
  intro statuses
  induction statuses with
  | nil => intro cnt k d _ h; simp [supervise] at h
  | cons s rest ih =>
    intro cnt k d hcnt h
    simp only [supervise] at h
    rcases hdd : decide_after_death opt s cnt with _ | p
    · rw [hdd] at h; simp at h
    rw [hdd] at h
    rcases p with ⟨pd, pcnt⟩
    cases pd with
    | exitSup c =>
      simp at h
      obtain ⟨hk, hd⟩ := h
      subst hk
      refine ⟨by omega, ?_⟩
      intro hkN hno
      have h254 : ¬(WIFEXITED s = true ∧ WEXITSTATUS s = CHILD_EXEC_ERR_CODE) :=
        hno s (List.mem_cons_self s rest)
      obtain ⟨rr, hrr⟩ := decide_after_death_shape opt s cnt _ h254 hdd
      have hcnt' : (cnt + 1) % UINT_MOD = cnt + 1 := Nat.mod_eq_of_lt (by omega)
      have hcne : cnt = N := by omega
      rw [after_classify_cap opt rr cnt (by rw [hmax]; omega)
        (by rw [hmax, hcnt']; omega)] at hrr
      simp at hrr
      rw [← hd, hrr.1]
    | respawn =>
      simp only [] at h
      rcases hrec : supervise opt pcnt rest with _ | q
      · rw [hrec] at h; simp at h
      rw [hrec] at h
      rcases q with ⟨k', d'⟩
      simp at h
      obtain ⟨hk, hd⟩ := h
      -- extract structure of the respawn step
      have h254 : ¬(WIFEXITED s = true ∧ WEXITSTATUS s = CHILD_EXEC_ERR_CODE) := by
        intro hcc
        rw [decide_after_death_fatal opt s cnt hcc.1 hcc.2] at hdd
        simp at hdd
      obtain ⟨rr, hrr⟩ := decide_after_death_shape opt s cnt _ h254 hdd
      obtain ⟨_, hnocap, hpcnt⟩ := after_classify_respawn_inv opt rr cnt pcnt hrr.symm
      have hmod : (cnt + 1) % UINT_MOD = cnt + 1 := Nat.mod_eq_of_lt (by omega)
      have hle : cnt + 1 ≤ N := by
        rcases Nat.lt_or_ge N (cnt + 1) with hgt | hok
        · exact absurd ⟨by omega, by omega⟩ hnocap
        · exact hok
      have hpc : pcnt = cnt + 1 := by rw [hpcnt, hmod]
      subst hpc
      obtain ⟨ih1, ih2⟩ := ih (cnt + 1) k' d' hle hrec
      constructor
      · omega
      · intro hkN hno
        rw [← hd]
        exact ih2 (by omega) fun t ht => hno t (List.mem_cons_of_mem s ht)

/-! ## Helper lemmas on the shutdown wait loop -/

/-- If the child is never reaped during the window, the loop runs all its
ticks and ends with the warning, SIGKILL, and the blocking wait. -/
lemma shutdown_wait_loop_no_reap (pid : Int) (reap : Nat → Bool) :
    ∀ (fuel t0 : Nat), (∀ k, k < fuel → reap (t0 + k) = false) →
      ∃ pre, shutdown_wait_loop pid reap fuel t0 =
          pre ++ [ShutdownEvent.warn_timeout, ShutdownEvent.sig_kill pid,
            ShutdownEvent.wait_block pid] ∧
        count_sleeps (shutdown_wait_loop pid reap fuel t0) = fuel := by
  intro fuel
  induction fuel with
  | zero =>
    intro t0 _
    exact ⟨[], rfl, rfl⟩
  | succ fuel ih =>
    intro t0 hno
    have h0 : reap t0 = false := by
      have := hno 0 (by omega)
      simpa using this
    obtain ⟨pre, hpre, hcount⟩ := ih (t0 + 1) fun k hk => by
      have := hno (k + 1) (by omega)
      rwa [show t0 + (k + 1) = t0 + 1 + k by omega] at this
    refine ⟨ShutdownEvent.sleep_us tick_us :: ShutdownEvent.wait_nohang pid false :: pre,
      ?_, ?_⟩
    · simp [shutdown_wait_loop, h0, hpre]
    · simp only [shutdown_wait_loop, h0]
      simp [count_sleeps] at hcount ⊢
      omega

/-- If the child is reaped at some tick inside the window, the loop returns
without the warning, without SIGKILL and without the blocking wait. -/
lemma shutdown_wait_loop_reap (pid : Int) (reap : Nat → Bool) :
    ∀ (fuel t0 : Nat), (∃ k, k < fuel ∧ reap (t0 + k) = true) →
      ShutdownEvent.sig_kill pid ∉ shutdown_wait_loop pid reap fuel t0 ∧
      ShutdownEvent.wait_block pid ∉ shutdown_wait_loop pid reap fuel t0 ∧
      ShutdownEvent.warn_timeout ∉ shutdown_wait_loop pid reap fuel t0 := by
  intro fuel
  induction fuel with
  | zero =>
    intro t0 h
    obtain ⟨k, hk, _⟩ := h
    omega
  | succ fuel ih =>
    intro t0 h
    by_cases h0 : reap t0
    · simp [shutdown_wait_loop, h0]
    · obtain ⟨k, hk, hrk⟩ := h
      have hk0 : k ≠ 0 := by
        intro h'
        subst h'
        simp at hrk
        exact h0 hrk
      obtain ⟨ihk, ihw, ihwt⟩ := ih (t0 + 1) ⟨k - 1, by omega, by
        rwa [show t0 + 1 + (k - 1) = t0 + k by omega]⟩
      have h0' : reap t0 = false := by simpa using h0
      simp [shutdown_wait_loop, h0', ihk, ihw, ihwt]

/-- The loop never sleeps more ticks than its fuel. -/
lemma shutdown_wait_loop_sleeps_le (pid : Int) (reap : Nat → Bool) :
    ∀ (fuel t0 : Nat), count_sleeps (shutdown_wait_loop pid reap fuel t0) ≤ fuel := by
  intro fuel
  induction fuel with
  | zero => intro t0; simp [shutdown_wait_loop, count_sleeps]
  | succ fuel ih =>
    intro t0
    by_cases h0 : reap t0
    · simp [shutdown_wait_loop, h0, count_sleeps]
    · have h0' : reap t0 = false := by simpa using h0
      have := ih (t0 + 1)
      simp only [shutdown_wait_loop, h0']
      simp [count_sleeps] at this ⊢
      omega

/-- The only SIGKILL the loop can send targets `pid`. -/
lemma shutdown_wait_loop_kill_pid (pid : Int) (reap : Nat → Bool) :
    ∀ (fuel t0 : Nat) (q : Int),
      ShutdownEvent.sig_kill q ∈ shutdown_wait_loop pid reap fuel t0 → q = pid := by
  intro fuel
  induction fuel with
  | zero =>
    intro t0 q hq
    simp [shutdown_wait_loop] at hq
    exact hq
  | succ fuel ih =>
    intro t0 q hq
    simp only [shutdown_wait_loop] at hq
    by_cases h0 : reap t0
    · simp [h0] at hq
    · have h0' : reap t0 = false := by simpa using h0
      simp [h0'] at hq
      exact ih (t0 + 1) q (by simpa using hq)

/-- The loop sends no SIGTERM at all. -/
lemma shutdown_wait_loop_no_term (pid : Int) (reap : Nat → Bool) :
    ∀ (fuel t0 : Nat) (q : Int),
      ShutdownEvent.sig_term q ∉ shutdown_wait_loop pid reap fuel t0 := by
  intro fuel
  induction fuel with
  | zero => intro t0 q; simp [shutdown_wait_loop]
  | succ fuel ih =>
    intro t0 q
    simp only [shutdown_wait_loop]
    by_cases h0 : reap t0
    · simp [h0]
    · have h0' : reap t0 = false := by simpa using h0
      simp [h0']
      exact ih (t0 + 1) q

/-! ## Small structural helpers -/

/-- A list of length four is an explicit four-element list. -/
lemma list_len4 (ws : List Nat) (h : ws.length = 4) :
    ∃ a b c d, ws = [a, b, c, d] := by
  rcases ws with _ | ⟨a, _ | ⟨b, _ | ⟨c, _ | ⟨d, _ | ⟨e, tl⟩⟩⟩⟩⟩ <;> simp at h
  exact ⟨a, b, c, d, rfl⟩

/-- Evaluation of `parse_respawn_code` on -1. -/
lemma parse_respawn_code_neg_one (opt : option_t) :
    parse_respawn_code opt (-1) =
      Except.ok { opt with
        respawn_code_bits := opt.respawn_code_bits.map fun _ => UINT32_MAX } := by
  rw [parse_respawn_code, if_neg (by omega), if_pos rfl]

/-- Evaluation of `parse_respawn_code` on a code in `[0, 127]`. -/
lemma parse_respawn_code_nonneg (opt : option_t) (c : Nat) (hc : c ≤ 127) :
    parse_respawn_code opt (c : Int) =
      Except.ok { opt with
        respawn_code_bits := set_code_bit opt.respawn_code_bits (c : Int) } := by
  rw [parse_respawn_code, if_neg (by omega), if_neg (by omega)]

/-- The all-zero bitset has no bit set. -/
lemma bits_testBit_zero4 (j : Nat) : bits_testBit [0, 0, 0, 0] j = false := by
  rw [bits_testBit_eq]
  have : List.getD [0, 0, 0, 0] (j / 32) 0 = 0 := by
    rcases h : j / 32 with _ | _ | _ | _ | n <;> simp
  rw [this]
  simp

/-! ## Claim theorems -/

/-- Claim C3 (confirmed): whenever the reaped status satisfies `WIFEXITED`
with exit code 254, the deciding step of the supervision loop exits with
`EXIT_FAILURE` and never respawns, for every configuration (respawn flag,
bitset, cap) and every counter value; the returned counter is unchanged, so
the branch precedes the counter update and the respawn decision. -/
theorem exec_failure_fatal_no_respawn (opt : option_t) (status cnt : Nat)
    (h1 : WIFEXITED status = true) (h2 : WEXITSTATUS status = CHILD_EXEC_ERR_CODE) :
    decide_after_death opt status cnt = some (Decision.exitSup EXIT_FAILURE, cnt) :=
  decide_after_death_fatal opt status cnt h1 h2

/-- Witness for C3: the wait status `254 << 8 = 65024` is an exited status
with code 254, and the deciding step exits failure leaving the counter at 5,
even though respawn is enabled with the default bitset. -/
theorem exec_failure_fatal_no_respawn_witness :
    decide_after_death { OPTION_INIT with respawn := true } 65024 5 =
      some (Decision.exitSup EXIT_FAILURE, 5) :=
  exec_failure_fatal_no_respawn { OPTION_INIT with respawn := true } 65024 5
    (by decide) (by decide)

/-- Claim C5 (code bug): with run_user set, the child performs initgroups
with the user and resolved gid, then setgid(gid) — but then calls
`setuid(opt->gid)` (main.c line 167), not `setuid(opt->uid)` as the claim
and the spec state: with uid 1000 and gid 2000, the call trace contains
`setuid 2000` and never `setuid 1000`.  The failure-to-254 part of the claim
does hold: when one of the switch calls fails the child exits 254. -/
theorem setuid_called_with_gid :
    (set_user_and_group opt_alice ⟨true, true, true⟩).1 =
      [UserCall.c_initgroups "alice" 2000, UserCall.c_setgid 2000,
        UserCall.c_setuid 2000, UserCall.c_setenv "USER" "alice",
        UserCall.c_setenv "LOGNAME" "alice",
        UserCall.c_setenv "HOME" "/home/alice"] ∧
    UserCall.c_setuid 1000 ∉ (set_user_and_group opt_alice ⟨true, true, true⟩).1 ∧
    child_user_switch opt_alice ⟨true, false, true⟩ = some CHILD_EXEC_ERR_CODE ∧
    child_user_switch opt_alice ⟨false, true, true⟩ = some CHILD_EXEC_ERR_CODE ∧
    child_user_switch opt_alice ⟨true, true, false⟩ = some CHILD_EXEC_ERR_CODE := by
  decide

/-- Claim C8 (code bug): the shutdown signal handler does set the shutdown
flag, but its first action is a `syslog` call (main.c line 245) — the
handler's effect trace is never free of logging, contradicting the claim
that it performs no logging. -/
theorem handler_logs_and_sets_flag :
    (sigaction_handler 2 false).1 = [HandlerEffect.syslog_warn 2] ∧
    (sigaction_handler 2 false).1 ≠ [] ∧
    (sigaction_handler 2 false).2 = true ∧
    (sigaction_handler 15 false).1 ≠ [] := by
  decide

/-- Claim C10 (confirmed): for every `pid ≤ 0`, `graceful_shutdown` returns
immediately with an empty event trace — no SIGTERM, no SIGKILL, no waiting —
and, moreover, every SIGTERM or SIGKILL it ever emits targets a strictly
positive pid, so the supervisor never broadcasts a termination signal via
`kill(0, ...)` or `kill(-1, ...)`. -/
theorem graceful_shutdown_nonpositive_pid_safety (pid : Int) (reap : Nat → Bool) :
    (pid ≤ 0 → graceful_shutdown pid reap = []) ∧
    (∀ q : Int, ShutdownEvent.sig_term q ∈ graceful_shutdown pid reap →
      0 < pid ∧ q = pid) ∧
    (∀ q : Int, ShutdownEvent.sig_kill q ∈ graceful_shutdown pid reap →
      0 < pid ∧ q = pid) := by
  by_cases hp : pid ≤ 0
  · simp [graceful_shutdown, hp]
  · have hp' : 0 < pid := by omega
    refine ⟨fun h => absurd h hp, ?_, ?_⟩
    · intro q hq
      simp only [graceful_shutdown, if_neg hp, List.mem_cons] at hq
      rcases hq with h | h
      · simp at h
        exact ⟨hp', h⟩
      · exact absurd h (shutdown_wait_loop_no_term pid reap _ _ q)
    · intro q hq
      simp only [graceful_shutdown, if_neg hp, List.mem_cons] at hq
      rcases hq with h | h
      · simp at h
      · exact ⟨hp', shutdown_wait_loop_kill_pid pid reap _ _ q h⟩

/-- Witness for C10: at pid 0 the shutdown trace is empty. -/
theorem graceful_shutdown_nonpositive_pid_safety_witness :
    graceful_shutdown 0 (fun _ => false) = [] :=
  (graceful_shutdown_nonpositive_pid_safety 0 (fun _ => false)).1 (by decide)

/-- Claim C9 (confirmed): cleanup closes, in order, the stdout redirect fd,
the stderr redirect fd and the pid-file fd (each when open), and unlinks the
pid file exactly when the supervisor holds a pid-file descriptor
(`pid_fd ≥ 0`); composed with the post-daemonize assignment, an instance
whose `daemonize` returned a positive locked fd unlinks its pid file on
every cleanup path, while an instance that never obtained the fd (such as a
would-be second instance, whose `daemonize` returns -1) never unlinks it. -/
theorem cleanup_order_and_unlink (opt : option_t) (fds : runtimefds_t) (code : Int) :
    (CleanupAction.unlink_pid opt.pid_file ∈ cleanup_and_exit opt fds code ↔
      0 ≤ fds.pid_fd) ∧
    (0 ≤ fds.stdout_fd → 0 ≤ fds.stderr_fd → 0 ≤ fds.pid_fd →
      cleanup_and_exit opt fds code =
        [CleanupAction.close_fd fds.stdout_fd, CleanupAction.close_fd fds.stderr_fd,
          CleanupAction.close_fd fds.pid_fd, CleanupAction.unlink_pid opt.pid_file,
          CleanupAction.free_opt, CleanupAction.exit_call code]) ∧
    (∀ rc : Int, rc ≤ 0 →
      CleanupAction.unlink_pid opt.pid_file ∉
        cleanup_and_exit opt (main_set_pid_fd rc RUNTIMEFDS_INIT) code) ∧
    (∀ rc : Int, 0 < rc →
      CleanupAction.unlink_pid opt.pid_file ∈
        cleanup_and_exit opt (main_set_pid_fd rc RUNTIMEFDS_INIT) code) := by
  refine ⟨?_, ?_, ?_, ?_⟩
  · by_cases h1 : 0 ≤ fds.stdout_fd <;> by_cases h2 : 0 ≤ fds.stderr_fd <;>
      by_cases h3 : 0 ≤ fds.pid_fd <;> simp [cleanup_and_exit, h1, h2, h3]
  · intro h1 h2 h3
    simp [cleanup_and_exit, h1, h2, h3]
  · intro rc hrc
    have hm : main_set_pid_fd rc RUNTIMEFDS_INIT = RUNTIMEFDS_INIT := by
      rw [main_set_pid_fd, if_neg (by omega)]
    rw [hm]
    simp [cleanup_and_exit, RUNTIMEFDS_INIT]
  · intro rc hrc
    have hm : main_set_pid_fd rc RUNTIMEFDS_INIT = ⟨-1, -1, rc⟩ := by
      rw [main_set_pid_fd, if_pos (by omega)]
      rfl
    rw [hm]
    simp [cleanup_and_exit]
    omega

/-- Witness for C9: with all three descriptors open the cleanup trace is
exactly close stdout, close stderr, close pid fd, unlink, free, exit. -/
theorem cleanup_order_and_unlink_witness :
    cleanup_and_exit OPTION_INIT ⟨3, 4, 5⟩ 0 =
      [CleanupAction.close_fd 3, CleanupAction.close_fd 4, CleanupAction.close_fd 5,
        CleanupAction.unlink_pid none, CleanupAction.free_opt,
        CleanupAction.exit_call 0] :=
  (cleanup_order_and_unlink OPTION_INIT ⟨3, 4, 5⟩ 0).2.1 (by decide) (by decide)
    (by decide)

/-- Claim C7 (confirmed): `daemonize` returns -1 exactly when one of its
fallible steps fails — with a pid file: either `test_running` (lock
acquisition, before or after the handshake), the pipe, the fork, or the
open of /dev/null; without a pid file: the fork or the open of /dev/null.
When it does not fail it returns the (positive) re-acquired lock descriptor
when a pid file was supplied, and 0 when not.  The hypothesis that a
successful lock open yields a positive fd is justified by POSIX: fds 0-2
are still open at that point, so `open` returns at least 3. -/
theorem daemonize_return_contract (p : String) (env : DaemonizeEnv)
    (hfd : ∀ fd, env.lock2 = some fd → 0 < fd) :
    (daemonize (some p) env = -1 ↔
      (env.lock1 = none ∨ env.pipe_ok = false ∨ env.fork_ok = false ∨
        env.lock2 = none ∨ env.devnull = none)) ∧
    (daemonize (some p) env ≠ -1 →
      0 < daemonize (some p) env ∧
        env.lock2 = some (daemonize (some p) env).toNat) ∧
    (daemonize none env = -1 ↔ (env.fork_ok = false ∨ env.devnull = none)) ∧
    (daemonize none env ≠ -1 → daemonize none env = 0) := by
  obtain ⟨l1, pk, fk, l2, dn⟩ := env
  rcases l1 with _ | fd1 <;> rcases pk <;> rcases fk <;> rcases l2 with _ | fd2 <;>
    rcases dn with _ | fd3 <;>
    simp_all [daemonize]

/-- Witness for C7: a run in which every step succeeds, with the second
lock acquisition returning fd 4, makes `daemonize` return 4 (positive). -/
theorem daemonize_return_contract_witness :
    daemonize (some "/run/rund.pid") ⟨some 3, true, true, some 4, some 5⟩ = 4 ∧
    0 < daemonize (some "/run/rund.pid") ⟨some 3, true, true, some 4, some 5⟩ := by
  refine ⟨by decide, ?_⟩
  exact ((daemonize_return_contract "/run/rund.pid" ⟨some 3, true, true, some 4, some 5⟩
    (by intro fd h; simp at h; omega)).2.1 (by decide)).1

/-- Claim C4 (confirmed): the respawn counter is incremented (mod `2^32`,
it is a C `unsigned int`) by the policy step reached on every reaped child
death that is not the structural 254 failure; when `max_respawn_cnt = N > 0`
and the incremented counter exceeds `N`, the step exits success whatever the
respawn decision was (the cap is checked before the respawn decision); hence
a run from a fresh counter performs at most `N` respawns, and a run whose
policy exit happens exactly at the (N+1)-th death exits gracefully. -/
theorem respawn_cap_bounds (opt : option_t) (N : Nat) (hmax : opt.max_respawn_cnt = N)
    (hN : 0 < N) (hN2 : N + 1 < UINT_MOD) :
    (∀ (rr : Bool) (cnt : Nat), (after_classify opt rr cnt).2 = (cnt + 1) % UINT_MOD) ∧
    (∀ (rr : Bool) (cnt : Nat), cnt + 1 < UINT_MOD → cnt + 1 > N →
      after_classify opt rr cnt = (Decision.exitSup EXIT_SUCCESS, cnt + 1)) ∧
    (∀ (statuses : List Nat) (k : Nat) (d : Decision),
      supervise opt 0 statuses = some (k, d) → k ≤ N) ∧
    (∀ (statuses : List Nat) (k : Nat) (d : Decision),
      (∀ s ∈ statuses, ¬(WIFEXITED s = true ∧ WEXITSTATUS s = CHILD_EXEC_ERR_CODE)) →
      supervise opt 0 statuses = some (k, d) → k = N →
      d = Decision.exitSup EXIT_SUCCESS) := by
  refine ⟨after_classify_snd opt, ?_, ?_, ?_⟩
  · intro rr cnt hmod hgt
    have h := after_classify_cap opt rr cnt (by rw [hmax]; omega)
      (by rw [hmax, Nat.mod_eq_of_lt hmod]; omega)
    rwa [Nat.mod_eq_of_lt hmod] at h
  · intro statuses k d h
    have := (supervise_cap opt N hmax hN hN2 statuses 0 k d (by omega) h).1
    omega
  · intro statuses k d hno h hk
    exact (supervise_cap opt N hmax hN hN2 statuses 0 k d (by omega) h).2
      (by omega) hno

/-- Witness for C4: with `--max-respawns 2` and respawn on any non-zero
code, three successive normal exits with code 7 (wait status 1792) produce
exactly 2 respawns and then the graceful cap exit. -/
theorem respawn_cap_bounds_witness :
    supervise { OPTION_INIT with respawn := true, max_respawn_cnt := 2 } 0
        [1792, 1792, 1792] = some (2, Decision.exitSup EXIT_SUCCESS) ∧
    (2 : Nat) ≤ 2 := by
  refine ⟨by decide, ?_⟩
  exact (respawn_cap_bounds { OPTION_INIT with respawn := true, max_respawn_cnt := 2 }
    2 rfl (by decide) (by decide)).2.2.1 [1792, 1792, 1792] 2
    (Decision.exitSup EXIT_SUCCESS) (by decide)

/-- Claim C1 counterexample: the claim states that the lookup returns false
for every negative code, but on a negative code the loop body evaluates
`1 << code` with a negative shift amount — undefined behaviour in C,
modelled as `none` — so the lookup does not return false at code -1 (with
respawn enabled and the default bitset). -/
theorem respawn_lookup_negative_code_counterexample :
    check_respawn_required { OPTION_INIT with respawn := true } (-1) ≠ some false := by
  decide

/-- Claim C1 (amended): for an enabled respawn flag and the 4-word bitset,
the lookup returns false for every code ≥ 128; for a negative code the C
shift is undefined (modelled `none`) — such codes never reach the lookup,
since `WEXITSTATUS` values are non-negative; for codes in `[0,127]` the
lookup returns exactly the spec's bit formula `(word[c/32] >> (c%32)) & 1`;
and consequently, after a normal (`WIFEXITED`) exit with code below 128,
when the cap is not exhausted, the deciding step respawns iff bit c of the
effective bitset is set. -/
theorem respawn_lookup_and_decision_amended (opt : option_t)
    (hlen : opt.respawn_code_bits.length = 4) (hresp : opt.respawn = true) :
    (∀ c : Int, 128 ≤ c → check_respawn_required opt c = some false) ∧
    (∀ c : Int, c < 0 → check_respawn_required opt c = none) ∧
    (∀ c : Nat, c < 128 →
      check_respawn_required opt (c : Int) =
        some (bits_testBit opt.respawn_code_bits c)) ∧
    (∀ status cnt : Nat, WIFEXITED status = true → WEXITSTATUS status < 128 →
      ¬(opt.max_respawn_cnt ≠ 0 ∧ (cnt + 1) % UINT_MOD > opt.max_respawn_cnt) →
      (decide_after_death opt status cnt =
          some (Decision.respawn, (cnt + 1) % UINT_MOD) ↔
        bits_testBit opt.respawn_code_bits (WEXITSTATUS status) = true)) := by
  obtain ⟨w0, w1, w2, w3, hws⟩ := list_len4 _ hlen
  have h3 : ∀ c : Nat, c < 128 →
      check_respawn_required opt (c : Int) =
        some (bits_testBit opt.respawn_code_bits c) := by
    intro c hc
    rw [check_respawn_required, hresp, hws]
    simpa using respawn_bit_lookup_eq w0 w1 w2 w3 c hc
  refine ⟨?_, ?_, h3, ?_⟩
  · intro c hc
    rw [check_respawn_required, hresp, hws]
    simpa using respawn_bit_lookup_ge w0 w1 w2 w3 c hc
  · intro c hc
    rw [check_respawn_required, hresp, hws]
    simpa using respawn_bit_lookup_neg w0 [w1, w2, w3] c hc
  · intro status cnt hex hlt hcap
    have hne : ¬(WEXITSTATUS status = CHILD_EXEC_ERR_CODE) := by
      rw [CHILD_EXEC_ERR_CODE]
      omega
    have hdec : decide_after_death opt status cnt =
        some (after_classify opt
          (bits_testBit opt.respawn_code_bits (WEXITSTATUS status)) cnt) := by
      rw [decide_after_death, if_pos hex, if_neg hne, h3 (WEXITSTATUS status) hlt]
    rw [hdec, after_classify_nocap opt _ cnt hcap]
    cases hbit : bits_testBit opt.respawn_code_bits (WEXITSTATUS status) <;>
      simp [hbit]

/-- Witness for C1: with respawn enabled and the default bitset, the lookup
at code 7 equals bit 7 of the bitset (which is set), and at code 300 it is
false. -/
theorem respawn_lookup_and_decision_witness :
    check_respawn_required { OPTION_INIT with respawn := true } ((7 : Nat) : Int) =
      some (bits_testBit
        ({ OPTION_INIT with respawn := true } : option_t).respawn_code_bits 7) ∧
    check_respawn_required { OPTION_INIT with respawn := true } 300 = some false := by
  have h := respawn_lookup_and_decision_amended { OPTION_INIT with respawn := true }
    (by decide) (by decide)
  exact ⟨h.2.2.1 7 (by decide), h.1 300 (by decide)⟩

/-- Claim C2 (confirmed): with `--respawn` set and no `--respawn-code`, the
effective bitset is the initializer's: bit 0 clear, bits 1..127 set;
`--respawn-code -1` makes every word `-1U` (all 128 bits); a non-negative
code `c` on the first occurrence clears the default mask (the `memset`) and
sets exactly bit `c`; on every later occurrence it ORs bit `c` into the
current mask. -/
theorem respawn_code_bitset_semantics :
    (∀ c : Nat, c < 128 →
      bits_testBit
          ({ OPTION_INIT with respawn := true } : option_t).respawn_code_bits c =
        decide (c ≠ 0)) ∧
    (∀ st : RCState, st.opt.respawn_code_bits.length = 4 →
      ∃ st2, handle_respawn_code_opt st (-1) = Except.ok st2 ∧
        st2.opt.respawn_code_bits =
          [UINT32_MAX, UINT32_MAX, UINT32_MAX, UINT32_MAX]) ∧
    (∀ (st : RCState) (c : Nat), st.has_respawn_code = false →
      st.opt.respawn_code_bits.length = 4 → c ≤ 127 →
      ∃ st2, handle_respawn_code_opt st (c : Int) = Except.ok st2 ∧
        ∀ j : Nat, j < 128 →
          bits_testBit st2.opt.respawn_code_bits j = decide (j = c)) ∧
    (∀ (st : RCState) (c : Nat), st.has_respawn_code = true →
      st.opt.respawn_code_bits.length = 4 → c ≤ 127 →
      ∃ st2, handle_respawn_code_opt st (c : Int) = Except.ok st2 ∧
        ∀ j : Nat, j < 128 →
          bits_testBit st2.opt.respawn_code_bits j =
            (bits_testBit st.opt.respawn_code_bits j || decide (j = c))) := by
  have hdefault : ∀ c : Nat, c < 128 →
      bits_testBit
          ({ OPTION_INIT with respawn := true } : option_t).respawn_code_bits c =
        decide (c ≠ 0) := by
    have hbits : ({ OPTION_INIT with respawn := true } : option_t).respawn_code_bits =
        [UINT32_MAX - 1, UINT32_MAX, UINT32_MAX, UINT32_MAX] := rfl
    have hw0 : ∀ c : Nat, c < 32 → (UINT32_MAX - 1).testBit c = decide (c ≠ 0) := by
      decide
    intro c hc
    rw [hbits, bits_testBit_eq]
    rcases Nat.lt_or_ge c 32 with h | h
    · have h1 : c / 32 = 0 := by omega
      have h2 : c % 32 = c := by omega
      rw [h1, h2, List.getD_cons_zero, hw0 c h]
    · have h1 : List.getD [UINT32_MAX - 1, UINT32_MAX, UINT32_MAX, UINT32_MAX]
          (c / 32) 0 = UINT32_MAX := by
        have hd : c / 32 = 1 ∨ c / 32 = 2 ∨ c / 32 = 3 := by omega
        rcases hd with h' | h' | h' <;> rw [h'] <;> rfl
      rw [h1, show UINT32_MAX = 2 ^ 32 - 1 from rfl, Nat.testBit_two_pow_sub_one]
      have hm : c % 32 < 32 := by omega
      simp [hm, show c ≠ 0 by omega]
  refine ⟨hdefault, ?_, ?_, ?_⟩
  · intro st hlen
    obtain ⟨a, b, c0, d, hws⟩ := list_len4 _ hlen
    by_cases hhas : st.has_respawn_code
    · refine ⟨⟨{ st.opt with
          respawn_code_bits := st.opt.respawn_code_bits.map fun _ => UINT32_MAX },
        true⟩, ?_, ?_⟩
      · rw [handle_respawn_code_opt]
        simp only [hhas, Bool.not_true, Bool.false_eq_true, if_false]
        rw [parse_respawn_code_neg_one]
      · simp only [hws, List.map_cons, List.map_nil]
    · have hhas' : st.has_respawn_code = false := by simpa using hhas
      refine ⟨⟨{ st.opt with
          respawn_code_bits :=
            (st.opt.respawn_code_bits.map fun _ => (0 : Nat)).map fun _ => UINT32_MAX },
        true⟩, ?_, ?_⟩
      · rw [handle_respawn_code_opt]
        simp only [hhas', Bool.not_false, if_true]
        rw [parse_respawn_code_neg_one]
      · simp only [hws, List.map_cons, List.map_nil]
  · intro st c hhas hlen hc
    obtain ⟨a, b, c0, d, hws⟩ := list_len4 _ hlen
    refine ⟨⟨{ st.opt with
        respawn_code_bits :=
          set_code_bit (st.opt.respawn_code_bits.map fun _ => 0) (c : Int) },
      true⟩, ?_, ?_⟩
    · rw [handle_respawn_code_opt]
      simp only [hhas, Bool.not_false, if_true]
      rw [parse_respawn_code_nonneg _ c hc]
    · intro j hj
      show bits_testBit
          (set_code_bit (st.opt.respawn_code_bits.map fun _ => 0) (c : Int)) j =
        decide (j = c)
      simp only [hws, List.map_cons, List.map_nil]
      rw [set_code_bit_testBit [0, 0, 0, 0] c j (by simp; omega) (by simp; omega),
        bits_testBit_zero4]
      simp
  · intro st c hhas hlen hc
    obtain ⟨a, b, c0, d, hws⟩ := list_len4 _ hlen
    refine ⟨⟨{ st.opt with
        respawn_code_bits := set_code_bit st.opt.respawn_code_bits (c : Int) },
      true⟩, ?_, ?_⟩
    · rw [handle_respawn_code_opt]
      simp only [hhas, Bool.not_true, Bool.false_eq_true, if_false]
      rw [parse_respawn_code_nonneg _ c hc]
    · intro j hj
      show bits_testBit (set_code_bit st.opt.respawn_code_bits (c : Int)) j =
        (bits_testBit st.opt.respawn_code_bits j || decide (j = c))
      rw [hws]
      exact set_code_bit_testBit [a, b, c0, d] c j (by simp; omega) (by simp; omega)

/-- Witness for C2: bit 7 of the default bitset is set (7 is non-zero), and
a first `--respawn-code 42` yields a bitset whose only set word is word 1
with bit 10, i.e. exactly bit 42. -/
theorem respawn_code_bitset_semantics_witness :
    bits_testBit ({ OPTION_INIT with respawn := true } : option_t).respawn_code_bits 7 =
      decide ((7 : Nat) ≠ 0) ∧
    (run_respawn_codes ⟨{ OPTION_INIT with respawn := true }, false⟩ [42]).toOption.map
        (fun st => st.opt.respawn_code_bits) = some [0, 1024, 0, 0] := by
  refine ⟨respawn_code_bitset_semantics.1 7 (by decide), by decide⟩

/-- Claim C6 (confirmed): on a shutdown request against a live target, the
supervisor enters the shutdown path and will exit `EXIT_SUCCESS`; the first
event is SIGTERM; the wait loop runs at most 50 ticks of 200 ms (10 s in
total); if the target is reaped at some tick inside the window, no SIGKILL
and no blocking wait ever appear in the trace; if it is never reaped inside
the window, the trace runs all 50 ticks and ends with the timeout warning,
SIGKILL, and the blocking wait. -/
theorem graceful_shutdown_protocol (pid : Int) (reap : Nat → Bool) (hpid : 0 < pid) :
    (∀ sr : Option Nat, watch_step pid true sr reap =
      WatchResult.shutdown (graceful_shutdown pid reap) EXIT_SUCCESS) ∧
    (graceful_shutdown pid reap).head? = some (ShutdownEvent.sig_term pid) ∧
    shutdown_timeout_cnt = 50 ∧
    tick_us * shutdown_timeout_cnt = 10000000 ∧
    count_sleeps (graceful_shutdown pid reap) ≤ shutdown_timeout_cnt ∧
    ((∃ t, t < shutdown_timeout_cnt ∧ reap t = true) →
      ShutdownEvent.sig_kill pid ∉ graceful_shutdown pid reap ∧
      ShutdownEvent.wait_block pid ∉ graceful_shutdown pid reap) ∧
    ((∀ t, t < shutdown_timeout_cnt → reap t = false) →
      ∃ pre, graceful_shutdown pid reap =
          pre ++ [ShutdownEvent.warn_timeout, ShutdownEvent.sig_kill pid,
            ShutdownEvent.wait_block pid] ∧
        count_sleeps (graceful_shutdown pid reap) = shutdown_timeout_cnt) := by
  have hne : ¬(pid ≤ 0) := by omega
  have hgs : graceful_shutdown pid reap =
      ShutdownEvent.sig_term pid ::
        shutdown_wait_loop pid reap shutdown_timeout_cnt 0 := by
    rw [graceful_shutdown, if_neg hne]
  refine ⟨fun sr => rfl, ?_, rfl, rfl, ?_, ?_, ?_⟩
  · rw [hgs]
    rfl
  · rw [hgs]
    have hc : count_sleeps (ShutdownEvent.sig_term pid ::
        shutdown_wait_loop pid reap shutdown_timeout_cnt 0) =
        count_sleeps (shutdown_wait_loop pid reap shutdown_timeout_cnt 0) := by
      simp [count_sleeps]
    rw [hc]
    exact shutdown_wait_loop_sleeps_le pid reap shutdown_timeout_cnt 0
  · intro h
    obtain ⟨t, ht, hrt⟩ := h
    obtain ⟨hk, hw, _⟩ := shutdown_wait_loop_reap pid reap shutdown_timeout_cnt 0
      ⟨t, ht, by simpa using hrt⟩
    rw [hgs]
    constructor <;> simp [hk, hw]
  · intro hno
    obtain ⟨pre, hpre, hcnt⟩ := shutdown_wait_loop_no_reap pid reap
      shutdown_timeout_cnt 0 (fun k hk => by simpa using hno k hk)
    refine ⟨ShutdownEvent.sig_term pid :: pre, ?_, ?_⟩
    · rw [hgs, hpre]
      rfl
    · rw [hgs]
      simpa [count_sleeps] using hcnt

/-- Witness for C6: with pid 12 and a target reaped at tick 2, the first
event is SIGTERM and no SIGKILL is ever sent. -/
theorem graceful_shutdown_protocol_witness :
    (graceful_shutdown 12 (fun t => decide (t = 2))).head? =
      some (ShutdownEvent.sig_term 12) ∧
    ShutdownEvent.sig_kill 12 ∉ graceful_shutdown 12 (fun t => decide (t = 2)) := by
  have h := graceful_shutdown_protocol 12 (fun t => decide (t = 2)) (by decide)
  exact ⟨h.2.1, (h.2.2.2.2.2.1 ⟨2, by decide, by decide⟩).1⟩

end Rund
